import Mathlib

/-!
Shallow embedding of the decision-cycle orchestrator of the AI hedge-fund
agent (src/agent/AIHedgeFundAgent.ts), its allocation normalizer
(src/services/GeminiService.ts) and the strategy scoring functions
(src/strategies/*.ts, MomentumStrategy).  JavaScript numbers are modelled
as exact rationals; JavaScript objects used as string-keyed weight maps are
modelled as association lists in insertion order.
-/

namespace HedgeFund

/-- JavaScript substring test (`String.prototype.includes`) for a non-empty
pattern: `s.splitOn pat` has more than one piece iff `pat` occurs in `s`. -/
def strContains (s pat : String) : Bool :=
  1 < (s.splitOn pat).length

/-- RiskProfile record from src/models/types.ts. -/
structure RiskProfile where
  type : String
  maxDrawdown : ℚ
  leverage : ℚ
  positionSizeFactor : ℚ
  maxExposurePerAsset : ℚ
  stopLossPercentage : ℚ
  takeProfitPercentage : ℚ
deriving DecidableEq

/-- One advisory recommendation, as consumed by
`AIHedgeFundAgent.adaptRiskSettings`: a priority tag and a free-text action. -/
structure Recommendation where
  priority : String
  action : String
deriving DecidableEq

/-- One iteration of the `for (const rec of riskRecommendations)` loop in
`AIHedgeFundAgent.adaptRiskSettings` (src/agent/AIHedgeFundAgent.ts,
lines 572-624): "reduce risk"/"lower exposure" multiply both factors by 0.9
with floors 0.5 and 0.05; "increase risk"/"higher exposure" multiply by 1.1
with ceilings 1.5 and 0.25; otherwise no change. -/
def applyRecommendation (rp : RiskProfile) (rec : Recommendation) : RiskProfile :=
  if strContains rec.action ("reduce risk") || strContains rec.action ("lower exposure") then
    { rp with
      positionSizeFactor := max (1/2) (rp.positionSizeFactor * (9/10)),
      maxExposurePerAsset := max (1/20) (rp.maxExposurePerAsset * (9/10)) }
  else if strContains rec.action ("increase risk") || strContains rec.action ("higher exposure") then
    { rp with
      positionSizeFactor := min (3/2) (rp.positionSizeFactor * (11/10)),
      maxExposurePerAsset := min (1/4) (rp.maxExposurePerAsset * (11/10)) }
  else rp

/-- The filter applied by `adaptRiskSettings` before the loop:
`rec.priority === "high" && (rec.action.includes("risk") ||
rec.action.includes("exposure"))`. -/
def isRiskRecommendation (rec : Recommendation) : Bool :=
  rec.priority == "high" && (strContains rec.action ("risk") || strContains rec.action ("exposure"))

/-- A raw or normalized weight map (`Record<string, number>` /
`PortfolioAllocation`), in key insertion order. -/
abbrev AllocMap : Type := List (String × ℚ)

/-- Sum of the values of a weight map
(`Object.values(allocation).reduce((a, b) => a + b, 0)`). -/
def sumWeights (a : AllocMap) : ℚ :=
  (List.map Prod.snd a).sum

/-- `GeminiService.normalizeAllocation` (src/services/GeminiService.ts,
lines 568-583): if the values sum to 0 (in particular for an empty map or an
all-zero map) return `1 / count` for each key of the input, where `count` is
the number of keys of the input; otherwise divide every value by the sum. -/
def normalizeAllocation (a : AllocMap) : AllocMap :=
  let sum := sumWeights a
  if sum = 0 then
    List.map (fun p => (p.1, 1 / ((List.length a : ℚ)))) a
  else
    List.map (fun p => (p.1, p.2 / sum)) a

/-- The three strategy identifiers registered by the agent constructor
(momentum, arbitrage, copy-trading: the keys produced by
`AIHedgeFundAgent.evaluateStrategies`). -/
def knownStrategies : List String :=
  ["momentum", "arbitrage", "copy-trading"]

/-- Taken from the spec, for comparison with the code: the fallback the spec
prescribes, an equal split across all known strategy identifiers (not just
those present in the normalizer input). -/
def specEqualSplitKnown : AllocMap :=
  List.map (fun k => (k, 1 / ((List.length knownStrategies : ℚ)))) knownStrategies

/-- Clamp of `x` into `[lo, hi]`, as the spec writes
`clamp(1 / (4 * volatilityIndex), 0.5, 2.0)`. -/
def clampQ (x lo hi : ℚ) : ℚ := max lo (min hi x)

/-- The volatility factor of `AIHedgeFundAgent.adaptRunInterval`
(src/agent/AIHedgeFundAgent.ts, lines 229-232):
`Math.max(0.5, Math.min(2, 1 / (volatilityIndex * 4 || 1)))`, where the
JavaScript `|| 1` replaces a zero denominator by 1. -/
def volatilityFactor (v : ℚ) : ℚ :=
  max (1/2) (min 2 (1 / (if v * 4 = 0 then 1 else v * 4)))

/-- The trading-activity factor of `adaptRunInterval`
(src/agent/AIHedgeFundAgent.ts, lines 236-241): 0.8 when the current
allocation is non-empty and its weights sum to more than 0.5, 1.2 when it is
non-empty with sum at most 0.5, and 1 when no allocation exists yet. -/
def tradingFactor (alloc : AllocMap) : ℚ :=
  if 0 < List.length alloc then
    if 1/2 < sumWeights alloc then 4/5 else 6/5
  else 1

/-- `Math.round`: round to the nearest integer, halves up. -/
def jsRound (x : ℚ) : ℤ := ⌊x + 1/2⌋

/-- One decision-log entry (`recordDecision` pushes
`{timestamp, type, details}`); `seq` stands for the payload and
distinguishes entries. -/
structure DecisionEntry where
  kind : String
  seq : Nat
deriving DecidableEq

/-- `AIHedgeFundAgent.recordDecision` (src/agent/AIHedgeFundAgent.ts,
lines 637-648): push the entry, then if the log exceeds 100 entries keep
only the last 100 (`slice(-100)`). -/
def recordDecision (log : List DecisionEntry) (e : DecisionEntry) : List DecisionEntry :=
  let l := log ++ [e]
  if 100 < List.length l then List.drop (List.length l - 100) l else l

/-- `n` successive `recordDecision` calls with `trade_execution` entries, as
performed by the record-trades loop of `executeAllocatedStrategies`. -/
def recordTradeEntries (log : List DecisionEntry) (n : Nat) : List DecisionEntry :=
  (List.range n).foldl (fun l _ => recordDecision l ⟨"trade_execution", 0⟩) log

/-- Per-exchange quote inside `AssetData` (src/models/types.ts). -/
structure ExchangeQuote where
  price : ℚ
  liquidity : ℚ
deriving DecidableEq

/-- The fields of `AssetData` read by the strategy evaluation code. -/
structure AssetData where
  price : ℚ
  priceChange24h : ℚ
  volatility : ℚ
  exchanges : List (String × ExchangeQuote)
deriving DecidableEq

/-- The `globalMetrics` record of `MarketData` (src/models/types.ts). -/
structure GlobalMetrics where
  volatilityIndex : ℚ
  sentimentScore : ℚ
  trendStrength : ℚ
deriving DecidableEq

/-- `MarketData` (src/models/types.ts): assets keyed by symbol plus global
metrics. -/
structure MarketData where
  timestamp : Nat
  assets : List (String × AssetData)
  globalMetrics : GlobalMetrics
deriving DecidableEq

/-- One entry of `marketAnalysis.opportunities` as read by the strategies. -/
structure Opportunity where
  asset : String
  strategy : String
  confidence : ℚ
deriving DecidableEq

/-- The fields of the advisory market analysis that the agent and the
strategies read; `opportunities` is optional (`analysis.opportunities` may be
absent). -/
structure MarketAnalysis where
  market_trend : String
  volatility_assessment : String
  opportunities : Option (List Opportunity)
deriving DecidableEq

/-- `StrategyScore` (src/models/types.ts): a 0-100 score and a 0-1
confidence level, per its declared documentation. -/
structure StrategyScore where
  score : ℚ
  confidence : ℚ
  reasoning : String
deriving DecidableEq

/-- `MomentumStrategy.calculateMomentumScore`: base 50, plus
`trendStrength * 20`, plus 10 for volatility below 0.3 or minus 15 above
0.7, plus 2 per asset with a 24h price change above 5, clamped to
`[0, 100]`. -/
def calculateMomentumScore (md : MarketData) : ℚ :=
  let score : ℚ := 50 + md.globalMetrics.trendStrength * 20
  let v := md.globalMetrics.volatilityIndex
  let score := if v < 3/10 then score + 10 else if 7/10 < v then score - 15 else score
  let momentumAssetCount := List.length (List.filter (fun p => decide (5 < p.2.priceChange24h)) md.assets)
  let score := score + (momentumAssetCount : ℚ) * 2
  max 0 (min 100 score)

/-- `MomentumStrategy.evaluate`: the clamped momentum score, with
`confidence = score / 100` computed from the already-clamped score. -/
def momentumEvaluate (md : MarketData) : StrategyScore :=
  let score := calculateMomentumScore md
  ⟨score, score / 100, "momentum"⟩

/-- The stablecoin skip of the strategy scan loops. -/
def isStablecoin (sym : String) : Bool :=
  sym == "USDC" || sym == "USDT" || sym == "DAI"

/-- All pairs `(xs[i], xs[j])` with `i < j`, in the order of the double loop
of `ArbitrageStrategy.findArbitrageOpportunities`. -/
def pairsOf {α : Type} : List α → List (α × α)
  | [] => []
  | x :: xs => List.map (fun y => (x, y)) xs ++ pairsOf xs

/-- The opportunity test on one exchange pair in
`findArbitrageOpportunities`: relative price difference above the 0.5%
threshold and more than 10000 liquidity on both sides (the buy and sell
legs are the two exchanges of the pair). -/
def arbitragePairOk (a b : ExchangeQuote) : Bool :=
  let priceDiff := |a.price - b.price|
  let priceDiffPercent := priceDiff / min a.price b.price
  decide (1/200 < priceDiffPercent) && decide (10000 < a.liquidity) && decide (10000 < b.liquidity)

/-- `ArbitrageStrategy.findArbitrageOpportunities`
(src/strategies/ArbitrageStrategy.ts, lines 104-176): for every
non-stablecoin asset listed on at least two exchanges, every exchange pair
passing `arbitragePairOk`.  The final sort by profit potential is omitted:
`evaluate` only reads the length of this list. -/
def findArbitrageOpportunities (md : MarketData) : List (String × ExchangeQuote × ExchangeQuote) :=
  md.assets.foldr
    (fun p acc =>
      if isStablecoin p.1 then acc
      else if List.length p.2.exchanges < 2 then acc
      else
        List.map (fun q => (p.1, q.1.2, q.2.2))
          (List.filter (fun q => arbitragePairOk q.1.2 q.2.2) (pairsOf p.2.exchanges)) ++ acc)
    []

/-- `ArbitrageStrategy.evaluate` (src/strategies/ArbitrageStrategy.ts,
lines 47-60): 50 plus 10 per opportunity capped at 50 when any opportunity
exists, else 25; `confidence = score / 100`. -/
def arbitrageEvaluate (md : MarketData) : StrategyScore :=
  let n := List.length (findArbitrageOpportunities md)
  let score : ℚ := if 0 < n then 50 + min 50 ((n : ℚ) * 10) else 25
  ⟨score, score / 100, "arbitrage"⟩

/-- `CopyTradingStrategy.evaluate` (src/strategies/CopyTradingStrategy.ts,
lines 53-91).  The internal `analyzeMarket` call is external advisory
input: `none` models the call throwing (the catch path returns the fallback
score 30 with confidence 0.3).  On success the raw score is 50, plus 10
when volatility is below 0.3, plus 7 per copy-trading opportunity; the
returned `score` is the raw score clamped to `[0, 100]` but the returned
`confidence` is `score / 100` of the UNCLAMPED raw variable `score`. -/
def copyTradingEvaluate (md : MarketData) (analysisResult : Option MarketAnalysis) : StrategyScore :=
  match analysisResult with
  | none => ⟨30, 3/10, "fallback"⟩
  | some analysis =>
    let score : ℚ := 50
    let score := if md.globalMetrics.volatilityIndex < 3/10 then score + 10 else score
    let score :=
      match analysis.opportunities with
      | some opps =>
          score + (List.length (List.filter (fun op => op.strategy == "copy-trading") opps) : ℚ) * 7
      | none => score
    ⟨max 0 (min 100 score), score / 100, "copy-trading"⟩

/-- `PerformanceMetrics` (src/models/types.ts). -/
structure PerformanceMetrics where
  totalReturn : ℚ
  sharpeRatio : ℚ
  maxDrawdown : ℚ
  volatility : ℚ
  winRate : ℚ
  averageWin : ℚ
  averageLoss : ℚ
  profitFactor : ℚ
  dailyReturns : List (String × ℚ)
deriving DecidableEq

/-- The metrics record the agent constructor initializes (all zero). -/
def zeroMetrics : PerformanceMetrics :=
  ⟨0, 0, 0, 0, 0, 0, 0, 0, []⟩

/-- The mutable fields of `AIHedgeFundAgent` that the decision cycle reads
and writes. -/
structure AgentState where
  isRunning : Bool
  lastRunTimestamp : Nat
  consecutiveFailures : Nat
  maxConsecutiveFailures : Nat
  adaptiveRunInterval : ℤ
  riskProfile : RiskProfile
  marketData : Option MarketData
  marketAnalysis : Option MarketAnalysis
  currentAllocation : AllocMap
  performanceMetrics : PerformanceMetrics
  decisionLog : List DecisionEntry
deriving DecidableEq

/-- The agent state right after the constructor
(src/agent/AIHedgeFundAgent.ts, lines 50-98): not running, zero failures,
failure threshold 5, 60000 ms interval, empty allocation and log. -/
def freshAgent (rp : RiskProfile) : AgentState :=
  { isRunning := false
    lastRunTimestamp := 0
    consecutiveFailures := 0
    maxConsecutiveFailures := 5
    adaptiveRunInterval := 60000
    riskProfile := rp
    marketData := none
    marketAnalysis := none
    currentAllocation := []
    performanceMetrics := zeroMetrics
    decisionLog := [] }

/-- Everything the external collaborators supply to one cycle.  `failStep =
some k` means sub-step `k` of `runCycle` (1 fetch, 2 analyze, 3 evaluate,
4 allocate, 5 execute, 6 metrics, 7 performance adaptation) throws;
`none` means the cycle completes.  `newAllocation` is the value
`geminiService.optimizeAllocation` returns, `tradeEntries` the number of
successful trades recorded when step 5 completes, `tradeEntriesBeforeFail`
the number recorded before the throwing `recordTrade` call when step 5
fails, `walletInfoOk` whether `getWalletInfo` returns data in step 6, and
`recommendations` the advisory recommendation list consumed by
`adaptRiskSettings` in step 7. -/
structure CycleEnv where
  now : Nat
  failStep : Option Nat
  marketData : MarketData
  analysis : MarketAnalysis
  newAllocation : AllocMap
  tradeEntries : Nat
  tradeEntriesBeforeFail : Nat
  walletInfoOk : Bool
  newMetrics : PerformanceMetrics
  recommendations : List Recommendation

/-- `AIHedgeFundAgent.adaptRiskSettings` (src/agent/AIHedgeFundAgent.ts,
lines 549-632) at the agent level: filter the recommendations, return
unchanged when none matches, otherwise apply each matching recommendation
in order and record one `risk_adaptation` entry. -/
def agentAdaptRisk (s : AgentState) (recs : List Recommendation) : AgentState :=
  let riskRecs := List.filter isRiskRecommendation recs
  if List.isEmpty riskRecs then s
  else
    { s with
      riskProfile := riskRecs.foldl applyRecommendation s.riskProfile
      decisionLog := recordDecision s.decisionLog ⟨"risk_adaptation", 0⟩ }

/-- `AIHedgeFundAgent.adaptRunInterval` (src/agent/AIHedgeFundAgent.ts,
lines 222-255): a no-op without market data, otherwise
`Math.round(60000 * volatilityFactor * tradingFactor)`. -/
def agentAdaptRunInterval (s : AgentState) : AgentState :=
  match s.marketData with
  | none => s
  | some md =>
    { s with
      adaptiveRunInterval :=
        jsRound (60000 * volatilityFactor md.globalMetrics.volatilityIndex
          * tradingFactor s.currentAllocation) }

/-- The `try` block of `AIHedgeFundAgent.runCycle`
(src/agent/AIHedgeFundAgent.ts, lines 150-185), returning the state at the
point the block finishes or throws, and whether it threw.  State writes
happen exactly where the source performs them: the timestamp before step 1,
`marketData` in step 1, `marketAnalysis` plus a `market_analysis` entry in
step 2, nothing in step 3 (the scores are only passed on),
`currentAllocation` plus a `portfolio_allocation` entry in step 4,
`trade_execution` entries in step 5 (those recorded before a throwing
`recordTrade` call when the step fails), the metrics in step 6 when the
wallet responds, and a `performance_analysis` entry followed by
`adaptRiskSettings` in step 7. -/
def runCycleSteps (s0 : AgentState) (env : CycleEnv) : AgentState × Bool :=
  let s := { s0 with lastRunTimestamp := env.now }
  if env.failStep = some 1 then (s, true) else
  let s := { s with marketData := some env.marketData }
  if env.failStep = some 2 then (s, true) else
  let s := { s with
    marketAnalysis := some env.analysis
    decisionLog := recordDecision s.decisionLog ⟨"market_analysis", 0⟩ }
  if env.failStep = some 3 then (s, true) else
  if env.failStep = some 4 then (s, true) else
  let s := { s with
    currentAllocation := env.newAllocation
    decisionLog := recordDecision s.decisionLog ⟨"portfolio_allocation", 0⟩ }
  if env.failStep = some 5 then
    ({ s with decisionLog := recordTradeEntries s.decisionLog env.tradeEntriesBeforeFail }, true) else
  let s := { s with decisionLog := recordTradeEntries s.decisionLog env.tradeEntries }
  if env.failStep = some 6 then (s, true) else
  let s := if env.walletInfoOk then { s with performanceMetrics := env.newMetrics } else s
  if env.failStep = some 7 then (s, true) else
  let s := { s with decisionLog := recordDecision s.decisionLog ⟨"performance_analysis", 0⟩ }
  (agentAdaptRisk s env.recommendations, false)

/-- `AIHedgeFundAgent.runCycle` (src/agent/AIHedgeFundAgent.ts,
lines 149-204).  The catch swallows the error, increments the
consecutive-failure counter and, at the threshold, calls `stop()` and
returns without scheduling; a successful cycle resets the counter and
re-adapts the interval; in all other cases a next cycle is scheduled iff
the agent is still running.  The returned Boolean says whether
`scheduleNextCycle` was invoked at the end of this cycle. -/
def runCycle (s : AgentState) (env : CycleEnv) : AgentState × Bool :=
  let p := runCycleSteps s env
  if p.2 then
    let s2 : AgentState := { p.1 with consecutiveFailures := p.1.consecutiveFailures + 1 }
    if s2.maxConsecutiveFailures ≤ s2.consecutiveFailures then
      ({ s2 with isRunning := false }, false)
    else
      (s2, s2.isRunning)
  else
    let s2 := agentAdaptRunInterval { p.1 with consecutiveFailures := 0 }
    (s2, s2.isRunning)

/-- `AIHedgeFundAgent.start` (src/agent/AIHedgeFundAgent.ts,
lines 103-117): a no-op when already running; otherwise set the running
flag, run one cycle synchronously, then call `scheduleNextCycle()`
unconditionally.  The returned number counts the one-shot timers armed
during the call: each `scheduleNextCycle` invocation arms exactly one
`setTimeout`, so this is the timer armed at the end of `runCycle` (when it
reschedules) plus the one armed by `start` itself. -/
def start (s : AgentState) (env : CycleEnv) : AgentState × Nat :=
  if s.isRunning then (s, 0)
  else
    let p := runCycle { s with isRunning := true } env
    (p.1, (if p.2 then 1 else 0) + 1)

/-- The decision log a cycle failing at sub-step `k` leaves behind: the
entries of the sub-steps completed before `k`, and nothing else — in
particular no entry recording the failure itself. -/
def failLog (log : List DecisionEntry) (env : CycleEnv) (k : Nat) : List DecisionEntry :=
  let log := if 2 < k then recordDecision log ⟨"market_analysis", 0⟩ else log
  let log := if 4 < k then recordDecision log ⟨"portfolio_allocation", 0⟩ else log
  if 5 < k then recordTradeEntries log env.tradeEntries
  else if k = 5 then recordTradeEntries log env.tradeEntriesBeforeFail
  else log

/-- A balanced risk profile, used as concrete input. -/
def demoRisk : RiskProfile :=
  { type := "balanced"
    maxDrawdown := 15/100
    leverage := 1
    positionSizeFactor := 1
    maxExposurePerAsset := 1/10
    stopLossPercentage := 5/100
    takeProfitPercentage := 1/10 }

/-- A concrete market snapshot, used as concrete input. -/
def demoMarketData : MarketData :=
  { timestamp := 1700000000
    assets := [("ETH", { price := 2000, priceChange24h := 2, volatility := 1/10, exchanges := [("uniswap", ⟨2000, 500000⟩)] })]
    globalMetrics := { volatilityIndex := 2/5, sentimentScore := 3/5, trendStrength := 1/2 } }

/-- A concrete neutral advisory analysis, used as concrete input. -/
def demoAnalysis : MarketAnalysis :=
  { market_trend := "neutral"
    volatility_assessment := "moderate"
    opportunities := some [] }

/-- A concrete cycle environment in which every sub-step succeeds. -/
def demoEnv : CycleEnv :=
  { now := 1
    failStep := none
    marketData := demoMarketData
    analysis := demoAnalysis
    newAllocation := [("momentum", 1)]
    tradeEntries := 1
    tradeEntriesBeforeFail := 0
    walletInfoOk := true
    newMetrics := zeroMetrics
    recommendations := [] }

/-- The demo cycle environment with sub-step `k` throwing. -/
def failEnv (k : Nat) : CycleEnv :=
  { demoEnv with failStep := some k }

/-- The fresh demo agent right after `start()` set its running flag, before
the first cycle. -/
def startedAgent : AgentState :=
  { freshAgent demoRisk with isRunning := true }

/-- The market snapshot and advisory analysis on which
`CopyTradingStrategy.evaluate` overruns the documented confidence bound:
volatility 0.2 (below 0.3) and eight copy-trading opportunities. -/
def overloadedAnalysis : MarketAnalysis :=
  { market_trend := "bullish"
    volatility_assessment := "low"
    opportunities := some (List.replicate 8 { asset := "ETH", strategy := "copy-trading", confidence := 6/10 }) }

/-- Market data with volatility index 0.2, for the copy-trading
counterexample input. -/
def calmMarketData : MarketData :=
  { demoMarketData with globalMetrics := { volatilityIndex := 1/5, sentimentScore := 3/5, trendStrength := 1/2 } }

/-! ### Helper lemmas about the allocation normalizer -/

theorem sumWeights_map_const (a : AllocMap) (c : ℚ) :
    sumWeights (List.map (fun p => (p.1, c)) a) = (List.length a : ℚ) * c := by
  induction a with
  | nil => simp [sumWeights]
  | cons p l ih =>
    simp only [List.map_cons, sumWeights, List.sum_cons, List.length_cons] at *
    push_cast
    rw [ih]
    ring

theorem sumWeights_map_div (a : AllocMap) (s : ℚ) :
    sumWeights (List.map (fun p => (p.1, p.2 / s)) a) = sumWeights a / s := by
  induction a with
  | nil => simp [sumWeights]
  | cons p l ih =>
    simp only [List.map_cons, sumWeights, List.sum_cons] at *
    rw [ih, add_div]

theorem sumWeights_nonneg (a : AllocMap) (h : ∀ p ∈ a, (0:ℚ) ≤ p.2) :
    0 ≤ sumWeights a := by
  induction a with
  | nil => simp [sumWeights]
  | cons p l ih =>
    simp only [sumWeights, List.sum_cons]
    have hp := h p (List.mem_cons_self p l)
    have hl := ih (fun q hq => h q (List.mem_cons_of_mem p hq))
    simpa [sumWeights] using add_nonneg hp hl

theorem sumWeights_eq_zero (a : AllocMap) (h : ∀ p ∈ a, p.2 = (0:ℚ)) :
    sumWeights a = 0 := by
  induction a with
  | nil => simp [sumWeights]
  | cons p l ih =>
    have hl := ih (fun q hq => h q (List.mem_cons_of_mem p hq))
    simp only [sumWeights, List.map_cons, List.sum_cons] at *
    rw [h p (List.mem_cons_self p l), hl]
    simp

/-! ### Claim C1 -/

/-- Claim C1, counterexample: on the empty raw weight map (the degenerate
advisory response, with the three strategies momentum, arbitrage and
copy-trading registered), `normalizeAllocation` returns the empty map, not
the equal split across all known strategy identifiers that the claim
asserts. -/
theorem claim1_empty_map_not_known_split :
    normalizeAllocation [] = ([] : AllocMap) ∧ normalizeAllocation [] ≠ specEqualSplitKnown := by
  refine ⟨rfl, ?_⟩
  simp [normalizeAllocation, specEqualSplitKnown, knownStrategies, sumWeights]

/-- Claim C1 as amended: for every raw weight map whose weights are all
zero (including the empty map), `normalizeAllocation` outputs an equal
split across the identifiers present in the input map only — `1 / count`
per input key, hence the empty map for empty input. -/
theorem claim1_zero_weights_split_over_input_keys (a : AllocMap)
    (h : ∀ p ∈ a, p.2 = (0:ℚ)) :
    normalizeAllocation a = List.map (fun p => (p.1, 1 / ((List.length a : ℚ)))) a := by
  unfold normalizeAllocation
  rw [sumWeights_eq_zero a h, if_pos rfl]

/-- Claim C1 witness: three zero-scored strategies normalize to one third
each. -/
theorem claim1_witness :
    normalizeAllocation [("s1", 0), ("s2", 0), ("s3", 0)]
      = [("s1", 1/3), ("s2", 1/3), ("s3", 1/3)] := by
  rw [claim1_zero_weights_split_over_input_keys [("s1", 0), ("s2", 0), ("s3", 0)] (by simp)]
  norm_num

/-! ### Claim C9 -/

/-- Claim C9, counterexample: at the empty raw weight map the normalizer
output is empty although three strategies are known, and its weights sum to
0, not to 1 within 1e-9 — so the claimed disjunction (valid distribution,
or empty exactly when there are zero known strategies) fails. -/
theorem claim9_empty_input_breaks_invariant :
    ¬ (((∀ p ∈ normalizeAllocation [], (0:ℚ) ≤ p.2) ∧
          |sumWeights (normalizeAllocation []) - 1| ≤ 1 / 1000000000) ∨
        (normalizeAllocation [] = ([] : AllocMap) ∧ knownStrategies = [])) := by
  intro hcl
  rcases hcl with ⟨-, habs⟩ | ⟨-, hks⟩
  · have h0 : normalizeAllocation ([] : AllocMap) = [] := rfl
    rw [h0] at habs
    have h1 : sumWeights ([] : AllocMap) = 0 := rfl
    rw [h1] at habs
    norm_num at habs
  · exact absurd hks (by simp [knownStrategies])

/-- Claim C9 as amended: the normalizer output is the empty map exactly for
empty input (regardless of how many strategies are registered); for
non-empty input the output weights sum to exactly 1; and the output weights
are non-negative whenever the input weights are non-negative. -/
theorem claim9_normalizer_invariant (a : AllocMap) :
    (a = [] → normalizeAllocation a = []) ∧
    (a ≠ [] → sumWeights (normalizeAllocation a) = 1) ∧
    ((∀ p ∈ a, (0:ℚ) ≤ p.2) → ∀ q ∈ normalizeAllocation a, (0:ℚ) ≤ q.2) := by
  refine ⟨?_, ?_, ?_⟩
  · intro h
    subst h
    rfl
  · intro h
    have hlen : (List.length a : ℚ) ≠ 0 := by
      exact_mod_cast Nat.pos_iff_ne_zero.mp (List.length_pos.mpr h)
    unfold normalizeAllocation
    by_cases hs : sumWeights a = 0
    · rw [if_pos hs, sumWeights_map_const, mul_one_div_cancel hlen]
    · rw [if_neg hs, sumWeights_map_div, div_self hs]
  · intro hn q hq
    unfold normalizeAllocation at hq
    by_cases hs : sumWeights a = 0
    · rw [if_pos hs] at hq
      obtain ⟨p, hp, rfl⟩ := List.mem_map.mp hq
      exact one_div_nonneg.mpr (Nat.cast_nonneg _)
    · rw [if_neg hs] at hq
      obtain ⟨p, hp, rfl⟩ := List.mem_map.mp hq
      exact div_nonneg (hn p hp) (sumWeights_nonneg a hn)

/-- Claim C9 witness: a one-entry raw map normalizes to total weight 1. -/
theorem claim9_witness : sumWeights (normalizeAllocation [("s1", 2)]) = 1 :=
  (claim9_normalizer_invariant [("s1", 2)]).2.1 (by decide)

/-! ### Claim C5 -/

/-- Claim C5, counterexample: at volatility index 0 the adaptive
scheduler's volatility factor is 1 (the JavaScript `|| 1` replaces the zero
denominator by 1, giving `1 / 1`), not the 2.0 the claim asserts. -/
theorem claim5_zero_volatility_gives_factor_one :
    volatilityFactor 0 = 1 ∧ volatilityFactor 0 ≠ 2 := by
  have h : volatilityFactor 0 = 1 := by
    simp only [volatilityFactor]
    norm_num
  exact ⟨h, by rw [h]; norm_num⟩

/-- Claim C5 as amended: for every non-zero volatility index the volatility
factor equals `clamp(1 / (4 * volatilityIndex), 0.5, 2.0)`; at volatility
index 0 the factor is 1.0, not 2.0. -/
theorem claim5_volatility_factor_clamp (v : ℚ) (hv : v ≠ 0) :
    volatilityFactor v = clampQ (1 / (4 * v)) (1/2) 2 := by
  have h4 : v * 4 ≠ 0 := mul_ne_zero hv (by norm_num)
  unfold volatilityFactor clampQ
  rw [if_neg h4, mul_comm v 4]

/-- Claim C5 witness: at volatility index 1/4 the factor is the clamp of
`1 / (4 * (1/4)) = 1`. -/
theorem claim5_witness :
    volatilityFactor (1/4) = clampQ (1 / (4 * (1/4))) (1/2) 2 :=
  claim5_volatility_factor_clamp (1/4) (by norm_num)

/-! ### Claim C8 -/

/-- Claim C8: `CopyTradingStrategy.evaluate` breaks the documented
`confidence ∈ [0, 1]` bound.  On a snapshot with volatility index 0.2 and
an advisory analysis containing eight copy-trading opportunities, the raw
score is 50 + 10 + 8 * 7 = 116; the returned `score` is clamped to 100 but
the returned `confidence` is the unclamped 116 / 100 = 1.16 > 1,
contradicting the `0-1 confidence level` documented on `StrategyScore` in
src/models/types.ts. -/
theorem claim8_copytrading_confidence_exceeds_one :
    (copyTradingEvaluate calmMarketData (some overloadedAnalysis)).confidence = 29/25 ∧
    1 < (copyTradingEvaluate calmMarketData (some overloadedAnalysis)).confidence ∧
    (copyTradingEvaluate calmMarketData (some overloadedAnalysis)).score = 100 := by
  refine ⟨?_, ?_, ?_⟩ <;>
    simp [copyTradingEvaluate, calmMarketData, overloadedAnalysis, demoMarketData] <;>
    norm_num

/-! ### Claim C6 -/

/-- One `adaptRiskSettings` loop iteration keeps `positionSizeFactor`
inside `[0.5, 1.5]` and `maxExposurePerAsset` inside `[0.05, 0.25]`. -/
theorem applyRecommendation_bounds (rp : RiskProfile) (r : Recommendation)
    (h1 : 1/2 ≤ rp.positionSizeFactor) (h2 : rp.positionSizeFactor ≤ 3/2)
    (h3 : 1/20 ≤ rp.maxExposurePerAsset) (h4 : rp.maxExposurePerAsset ≤ 1/4) :
    1/2 ≤ (applyRecommendation rp r).positionSizeFactor ∧
    (applyRecommendation rp r).positionSizeFactor ≤ 3/2 ∧
    1/20 ≤ (applyRecommendation rp r).maxExposurePerAsset ∧
    (applyRecommendation rp r).maxExposurePerAsset ≤ 1/4 := by
  unfold applyRecommendation
  split_ifs with hred hinc
  · exact ⟨le_max_left _ _, max_le (by norm_num) (by linarith),
      le_max_left _ _, max_le (by norm_num) (by linarith)⟩
  · exact ⟨le_min (by norm_num) (by linarith), min_le_left _ _,
      le_min (by norm_num) (by linarith), min_le_left _ _⟩
  · exact ⟨h1, h2, h3, h4⟩

/-- Claim C6: starting from any risk profile with `positionSizeFactor` in
`[0.5, 1.5]` and `maxExposurePerAsset` in `[0.05, 0.25]`, any sequence of
Risk Adapter recommendation applications (each a "reduce" multiply-by-0.9
with floors 0.5 / 0.05, an "increase" multiply-by-1.1 with ceilings 1.5 /
0.25, or a no-op) keeps both parameters inside those intervals. -/
theorem claim6_risk_bounds_invariant (rp : RiskProfile) (recs : List Recommendation)
    (h1 : 1/2 ≤ rp.positionSizeFactor) (h2 : rp.positionSizeFactor ≤ 3/2)
    (h3 : 1/20 ≤ rp.maxExposurePerAsset) (h4 : rp.maxExposurePerAsset ≤ 1/4) :
    1/2 ≤ (recs.foldl applyRecommendation rp).positionSizeFactor ∧
    (recs.foldl applyRecommendation rp).positionSizeFactor ≤ 3/2 ∧
    1/20 ≤ (recs.foldl applyRecommendation rp).maxExposurePerAsset ∧
    (recs.foldl applyRecommendation rp).maxExposurePerAsset ≤ 1/4 := by
  induction recs generalizing rp with
  | nil => exact ⟨h1, h2, h3, h4⟩
  | cons r rs ih =>
    obtain ⟨g1, g2, g3, g4⟩ := applyRecommendation_bounds rp r h1 h2 h3 h4
    simpa using ih (applyRecommendation rp r) g1 g2 g3 g4

/-- Claim C6 witness: the balanced demo profile stays in bounds under one
high-priority "reduce risk" recommendation. -/
theorem claim6_witness :
    1/2 ≤ (([⟨"high", "reduce risk now"⟩] : List Recommendation).foldl applyRecommendation demoRisk).positionSizeFactor ∧
    (([⟨"high", "reduce risk now"⟩] : List Recommendation).foldl applyRecommendation demoRisk).positionSizeFactor ≤ 3/2 ∧
    1/20 ≤ (([⟨"high", "reduce risk now"⟩] : List Recommendation).foldl applyRecommendation demoRisk).maxExposurePerAsset ∧
    (([⟨"high", "reduce risk now"⟩] : List Recommendation).foldl applyRecommendation demoRisk).maxExposurePerAsset ≤ 1/4 :=
  claim6_risk_bounds_invariant demoRisk [⟨"high", "reduce risk now"⟩]
    (by norm_num [demoRisk]) (by norm_num [demoRisk]) (by norm_num [demoRisk]) (by norm_num [demoRisk])

/-! ### Claim C7 -/

set_option maxRecDepth 100000 in
/-- Claim C7: `recordDecision` never leaves more than 100 entries in the
decision log, whatever log it is given; and 150 sequential records of
entries numbered 1 to 150 into an empty log leave exactly entries 51 to
150, in insertion order (the oldest 50 were evicted first). -/
theorem claim7_decision_log_ring_buffer :
    (∀ (log : List DecisionEntry) (e : DecisionEntry),
        List.length (recordDecision log e) ≤ 100) ∧
    List.map DecisionEntry.seq
        (((List.range' 1 150).map (fun i => (⟨"decision", i⟩ : DecisionEntry))).foldl recordDecision [])
      = List.range' 51 100 := by
  constructor
  · intro log e
    simp only [recordDecision]
    split_ifs with h
    · simp only [List.length_drop]
      omega
    · omega
  · decide

/-! ### Claim C10 -/

/-- Claim C10: calling `start()` on an agent that is already running is a
no-op — it runs no cycle, arms no timer (0 timers armed), and returns the
state with every field unchanged. -/
theorem claim10_start_noop_when_running (s : AgentState) (env : CycleEnv)
    (h : s.isRunning = true) : start s env = (s, 0) := by
  simp [start, h]

/-- Claim C10 witness: `start` on the running demo agent changes nothing
and arms no timer. -/
theorem claim10_witness : start startedAgent demoEnv = (startedAgent, 0) :=
  claim10_start_noop_when_running startedAgent demoEnv rfl

/-! ### Claim C4 -/

/-- Claim C4: `start()` on a fresh agent whose first cycle succeeds arms
TWO one-shot timers, not one — `runCycle` reschedules at its own end and
`start` then calls `scheduleNextCycle()` once more — so two cycle chains
run from then on, contradicting the claimed single pending cycle. -/
theorem claim4_start_arms_two_timers :
    (start (freshAgent demoRisk) demoEnv).2 = 2 ∧
    (start (freshAgent demoRisk) (failEnv 1)).2 = 2 := by
  constructor <;> rfl

/-! ### Claim C2 -/

/-- Re-adapting the run interval never touches the consecutive-failure
counter. -/
theorem adaptRunInterval_preserves_failures (s : AgentState) :
    (agentAdaptRunInterval s).consecutiveFailures = s.consecutiveFailures := by
  unfold agentAdaptRunInterval
  split <;> rfl

/-- `adaptRiskSettings` only touches the risk profile and the decision
log, never the running flag, the failure counter or the threshold. -/
theorem agentAdaptRisk_preserves (s : AgentState) (recs : List Recommendation) :
    (agentAdaptRisk s recs).consecutiveFailures = s.consecutiveFailures ∧
    (agentAdaptRisk s recs).maxConsecutiveFailures = s.maxConsecutiveFailures ∧
    (agentAdaptRisk s recs).isRunning = s.isRunning := by
  simp only [agentAdaptRisk]
  refine ⟨?_, ?_, ?_⟩ <;> split <;> rfl

/-- No sub-step of the `try` block writes the failure counter, the failure
threshold or the running flag, whatever the environment does and wherever
the cycle fails. -/
theorem runCycleSteps_preserves (s : AgentState) (env : CycleEnv) :
    (runCycleSteps s env).1.consecutiveFailures = s.consecutiveFailures ∧
    (runCycleSteps s env).1.maxConsecutiveFailures = s.maxConsecutiveFailures ∧
    (runCycleSteps s env).1.isRunning = s.isRunning := by
  unfold runCycleSteps
  refine ⟨?_, ?_, ?_⟩ <;> (repeat' split) <;>
    first
      | rfl
      | exact (agentAdaptRisk_preserves _ _).1
      | exact (agentAdaptRisk_preserves _ _).2.1
      | exact (agentAdaptRisk_preserves _ _).2.2

/-- What the `try` block leaves behind when sub-step `k` throws: the
counter untouched (the catch increments it), the allocation already
replaced when the failure is past the allocation step, the risk profile
untouched, the metrics replaced only when the failure is in step 7 with a
responding wallet, and exactly the log entries of the completed
sub-steps. -/
theorem runCycleSteps_fail (s : AgentState) (env : CycleEnv) (k : Nat)
    (hf : env.failStep = some k) (hk1 : 1 ≤ k) (hk7 : k ≤ 7) :
    (runCycleSteps s env).2 = true ∧
    (runCycleSteps s env).1.consecutiveFailures = s.consecutiveFailures ∧
    (runCycleSteps s env).1.currentAllocation =
      (if k ≤ 4 then s.currentAllocation else env.newAllocation) ∧
    (runCycleSteps s env).1.riskProfile = s.riskProfile ∧
    (runCycleSteps s env).1.performanceMetrics =
      (if k = 7 ∧ env.walletInfoOk = true then env.newMetrics else s.performanceMetrics) ∧
    (runCycleSteps s env).1.decisionLog = failLog s.decisionLog env k := by
  interval_cases k <;>
    · simp only [runCycleSteps, hf, Option.some.injEq, failLog]
      norm_num
      try (cases env.walletInfoOk <;> simp)

/-- A failing cycle below the halt threshold keeps the running flag,
schedules the next cycle iff the agent is running, increments the counter
and keeps the threshold. -/
theorem runCycle_fail_continue (s : AgentState) (env : CycleEnv)
    (h : (runCycleSteps s env).2 = true)
    (hc : s.consecutiveFailures + 1 < s.maxConsecutiveFailures) :
    (runCycle s env).1.isRunning = s.isRunning ∧
    (runCycle s env).2 = s.isRunning ∧
    (runCycle s env).1.consecutiveFailures = s.consecutiveFailures + 1 ∧
    (runCycle s env).1.maxConsecutiveFailures = s.maxConsecutiveFailures := by
  obtain ⟨p1, p2, p3⟩ := runCycleSteps_preserves s env
  unfold runCycle
  simp only [h, if_true, p1, p2, p3]
  rw [if_neg (not_le.mpr hc)]
  exact ⟨rfl, rfl, rfl, rfl⟩

/-- A failing cycle that reaches the halt threshold clears the running flag
(the code calls `stop()`), schedules nothing, and increments the
counter. -/
theorem runCycle_fail_halt (s : AgentState) (env : CycleEnv)
    (h : (runCycleSteps s env).2 = true)
    (hc : s.maxConsecutiveFailures ≤ s.consecutiveFailures + 1) :
    (runCycle s env).1.isRunning = false ∧
    (runCycle s env).2 = false ∧
    (runCycle s env).1.consecutiveFailures = s.consecutiveFailures + 1 := by
  obtain ⟨p1, p2, p3⟩ := runCycleSteps_preserves s env
  unfold runCycle
  simp only [h, if_true, p1, p2, p3]
  rw [if_pos hc]
  exact ⟨rfl, rfl, rfl⟩

/-- Claim C2, for every run: starting a fresh orchestrator (any risk
profile) whose first cycle fails at any sub-step, then letting the timer
chain run three more failing cycles (any sub-steps, any environments),
leaves the agent running with the counter at each intermediate value and
each cycle rescheduling; the 5th consecutive failing cycle — exactly the
default `maxConsecutiveFailures = 5` — clears the running flag (the code's
observable for the spec state `HaltedOnFailure`, reached via `stop()`) and
schedules no successor; and any successful cycle of any agent resets the
counter to 0. -/
theorem claim2_circuit_breaker (rp : RiskProfile) (e1 e2 e3 e4 e5 : CycleEnv)
    (k1 k2 k3 k4 k5 : Nat)
    (hf1 : e1.failStep = some k1) (ha1 : 1 ≤ k1) (hb1 : k1 ≤ 7)
    (hf2 : e2.failStep = some k2) (ha2 : 1 ≤ k2) (hb2 : k2 ≤ 7)
    (hf3 : e3.failStep = some k3) (ha3 : 1 ≤ k3) (hb3 : k3 ≤ 7)
    (hf4 : e4.failStep = some k4) (ha4 : 1 ≤ k4) (hb4 : k4 ≤ 7)
    (hf5 : e5.failStep = some k5) (ha5 : 1 ≤ k5) (hb5 : k5 ≤ 7) :
    (freshAgent rp).maxConsecutiveFailures = 5 ∧
    (let s1 := (start (freshAgent rp) e1).1
     let r2 := runCycle s1 e2
     let r3 := runCycle r2.1 e3
     let r4 := runCycle r3.1 e4
     let r5 := runCycle r4.1 e5
     (s1.isRunning = true ∧ s1.consecutiveFailures = 1) ∧
     (r2.2 = true ∧ r2.1.isRunning = true ∧ r2.1.consecutiveFailures = 2) ∧
     (r3.2 = true ∧ r3.1.isRunning = true ∧ r3.1.consecutiveFailures = 3) ∧
     (r4.2 = true ∧ r4.1.isRunning = true ∧ r4.1.consecutiveFailures = 4) ∧
     (r5.2 = false ∧ r5.1.isRunning = false ∧ r5.1.consecutiveFailures = 5)) ∧
    (∀ (s : AgentState) (env : CycleEnv), env.failStep = none →
      (runCycle s env).1.consecutiveFailures = 0) := by
  refine ⟨rfl, ?_, ?_⟩
  · have hs1 : (start (freshAgent rp) e1).1
        = (runCycle ({ freshAgent rp with isRunning := true } : AgentState) e1).1 := rfl
    have t1 : (runCycleSteps ({ freshAgent rp with isRunning := true } : AgentState) e1).2 = true :=
      (runCycleSteps_fail _ e1 k1 hf1 ha1 hb1).1
    have c1 := runCycle_fail_continue ({ freshAgent rp with isRunning := true } : AgentState) e1 t1
      (by norm_num [freshAgent])
    have h1r : (start (freshAgent rp) e1).1.isRunning = true := by rw [hs1]; exact c1.1
    have h1c : (start (freshAgent rp) e1).1.consecutiveFailures = 1 := by rw [hs1]; exact c1.2.2.1
    have h1m : (start (freshAgent rp) e1).1.maxConsecutiveFailures = 5 := by rw [hs1]; exact c1.2.2.2
    have t2 : (runCycleSteps (start (freshAgent rp) e1).1 e2).2 = true :=
      (runCycleSteps_fail _ e2 k2 hf2 ha2 hb2).1
    have c2 := runCycle_fail_continue (start (freshAgent rp) e1).1 e2 t2
      (by rw [h1c, h1m]; omega)
    have h2f : (runCycle (start (freshAgent rp) e1).1 e2).2 = true := by rw [c2.2.1, h1r]
    have h2r : (runCycle (start (freshAgent rp) e1).1 e2).1.isRunning = true := by rw [c2.1, h1r]
    have h2c : (runCycle (start (freshAgent rp) e1).1 e2).1.consecutiveFailures = 2 := by
      rw [c2.2.2.1, h1c]
    have h2m : (runCycle (start (freshAgent rp) e1).1 e2).1.maxConsecutiveFailures = 5 := by
      rw [c2.2.2.2, h1m]
    have t3 : (runCycleSteps (runCycle (start (freshAgent rp) e1).1 e2).1 e3).2 = true :=
      (runCycleSteps_fail _ e3 k3 hf3 ha3 hb3).1
    have c3 := runCycle_fail_continue (runCycle (start (freshAgent rp) e1).1 e2).1 e3 t3
      (by rw [h2c, h2m]; omega)
    have h3f : (runCycle (runCycle (start (freshAgent rp) e1).1 e2).1 e3).2 = true := by
      rw [c3.2.1, h2r]
    have h3r : (runCycle (runCycle (start (freshAgent rp) e1).1 e2).1 e3).1.isRunning = true := by
      rw [c3.1, h2r]
    have h3c : (runCycle (runCycle (start (freshAgent rp) e1).1 e2).1 e3).1.consecutiveFailures = 3 := by
      rw [c3.2.2.1, h2c]
    have h3m : (runCycle (runCycle (start (freshAgent rp) e1).1 e2).1 e3).1.maxConsecutiveFailures = 5 := by
      rw [c3.2.2.2, h2m]
    have t4 : (runCycleSteps (runCycle (runCycle (start (freshAgent rp) e1).1 e2).1 e3).1 e4).2 = true :=
      (runCycleSteps_fail _ e4 k4 hf4 ha4 hb4).1
    have c4 := runCycle_fail_continue (runCycle (runCycle (start (freshAgent rp) e1).1 e2).1 e3).1 e4 t4
      (by rw [h3c, h3m]; omega)
    have h4f : (runCycle (runCycle (runCycle (start (freshAgent rp) e1).1 e2).1 e3).1 e4).2 = true := by
      rw [c4.2.1, h3r]
    have h4r : (runCycle (runCycle (runCycle (start (freshAgent rp) e1).1 e2).1 e3).1 e4).1.isRunning = true := by
      rw [c4.1, h3r]
    have h4c : (runCycle (runCycle (runCycle (start (freshAgent rp) e1).1 e2).1 e3).1 e4).1.consecutiveFailures = 4 := by
      rw [c4.2.2.1, h3c]
    have h4m : (runCycle (runCycle (runCycle (start (freshAgent rp) e1).1 e2).1 e3).1 e4).1.maxConsecutiveFailures = 5 := by
      rw [c4.2.2.2, h3m]
    have t5 : (runCycleSteps (runCycle (runCycle (runCycle (start (freshAgent rp) e1).1 e2).1 e3).1 e4).1 e5).2 = true :=
      (runCycleSteps_fail _ e5 k5 hf5 ha5 hb5).1
    have c5 := runCycle_fail_halt (runCycle (runCycle (runCycle (start (freshAgent rp) e1).1 e2).1 e3).1 e4).1 e5 t5
      (by rw [h4c, h4m])
    have h5c : (runCycle (runCycle (runCycle (runCycle (start (freshAgent rp) e1).1 e2).1 e3).1 e4).1 e5).1.consecutiveFailures = 5 := by
      rw [c5.2.2, h4c]
    exact ⟨⟨h1r, h1c⟩, ⟨h2f, h2r, h2c⟩, ⟨h3f, h3r, h3c⟩, ⟨h4f, h4r, h4c⟩,
      ⟨c5.2.1, c5.1, h5c⟩⟩
  · intro s env h
    have h2 : (runCycleSteps s env).2 = false := by
      simp only [runCycleSteps, h, Option.some.injEq, reduceCtorEq, if_false]
    unfold runCycle
    simp only [h2, Bool.false_eq_true, if_false]
    exact adaptRunInterval_preserves_failures _

/-- Claim C2 witness: the circuit breaker exercised on the balanced demo
profile with the five consecutive cycles failing at sub-steps 1, 3, 5, 7
and 2, plus a concrete successful cycle resetting the counter. -/
theorem claim2_witness :
    (freshAgent demoRisk).maxConsecutiveFailures = 5 ∧
    (let s1 := (start (freshAgent demoRisk) (failEnv 1)).1
     let r2 := runCycle s1 (failEnv 3)
     let r3 := runCycle r2.1 (failEnv 5)
     let r4 := runCycle r3.1 (failEnv 7)
     let r5 := runCycle r4.1 (failEnv 2)
     (s1.isRunning = true ∧ s1.consecutiveFailures = 1) ∧
     (r2.2 = true ∧ r2.1.isRunning = true ∧ r2.1.consecutiveFailures = 2) ∧
     (r3.2 = true ∧ r3.1.isRunning = true ∧ r3.1.consecutiveFailures = 3) ∧
     (r4.2 = true ∧ r4.1.isRunning = true ∧ r4.1.consecutiveFailures = 4) ∧
     (r5.2 = false ∧ r5.1.isRunning = false ∧ r5.1.consecutiveFailures = 5)) ∧
    (∀ (s : AgentState) (env : CycleEnv), env.failStep = none →
      (runCycle s env).1.consecutiveFailures = 0) :=
  claim2_circuit_breaker demoRisk (failEnv 1) (failEnv 3) (failEnv 5) (failEnv 7) (failEnv 2)
    1 3 5 7 2
    rfl (by norm_num) (by norm_num)
    rfl (by norm_num) (by norm_num)
    rfl (by norm_num) (by norm_num)
    rfl (by norm_num) (by norm_num)
    rfl (by norm_num) (by norm_num)

/-! ### Claim C3 -/

/-- When the `try` block throws, the catch path increments the
consecutive-failure counter and leaves every other field of the state as
the `try` block left it (whether or not the halt threshold is reached). -/
theorem runCycle_fail_proj (s : AgentState) (env : CycleEnv)
    (h : (runCycleSteps s env).2 = true) :
    (runCycle s env).1.consecutiveFailures = (runCycleSteps s env).1.consecutiveFailures + 1 ∧
    (runCycle s env).1.currentAllocation = (runCycleSteps s env).1.currentAllocation ∧
    (runCycle s env).1.riskProfile = (runCycleSteps s env).1.riskProfile ∧
    (runCycle s env).1.performanceMetrics = (runCycleSteps s env).1.performanceMetrics ∧
    (runCycle s env).1.decisionLog = (runCycleSteps s env).1.decisionLog := by
  unfold runCycle
  simp only [h, if_true]
  rcases le_or_lt (runCycleSteps s env).1.maxConsecutiveFailures
    ((runCycleSteps s env).1.consecutiveFailures + 1) with hle | hlt
  · rw [if_pos hle]
    exact ⟨rfl, rfl, rfl, rfl, rfl⟩
  · rw [if_neg (not_le.mpr hlt)]
    exact ⟨rfl, rfl, rfl, rfl, rfl⟩

/-- Claim C3, counterexample: on a fresh running agent whose cycle fails at
sub-step 5 (trade execution, the advisory oracle having returned the
allocation `{momentum: 1}` in sub-step 4), the cycle leaves the failure
counter at 1 but the current allocation HAS changed, and the decision log
holds only the `market_analysis` and `portfolio_allocation` entries of the
completed sub-steps — no entry recording the failure. -/
theorem claim3_failure_unlogged_allocation_changed :
    (runCycle startedAgent (failEnv 5)).1.currentAllocation ≠ startedAgent.currentAllocation ∧
    List.map DecisionEntry.kind (runCycle startedAgent (failEnv 5)).1.decisionLog
      = ["market_analysis", "portfolio_allocation"] ∧
    (runCycle startedAgent (failEnv 5)).1.consecutiveFailures = 1 := by
  decide

/-- Claim C3 as amended: when sub-step `k` of a cycle throws, the remaining
sub-steps are skipped, the error is swallowed (the cycle returns a state
rather than propagating), the consecutive-failure counter is incremented,
NO decision-log entry recording the failure is produced (the log gains
exactly the entries of the sub-steps completed before `k`), the risk
profile is unchanged, and the current allocation is unchanged only when the
failure occurs at or before the allocation sub-step — a failure after it
leaves the newly set allocation in place. -/
theorem claim3_failing_cycle_effects (s : AgentState) (env : CycleEnv) (k : Nat)
    (hf : env.failStep = some k) (hk1 : 1 ≤ k) (hk7 : k ≤ 7) :
    (runCycle s env).1.consecutiveFailures = s.consecutiveFailures + 1 ∧
    (runCycle s env).1.currentAllocation =
      (if k ≤ 4 then s.currentAllocation else env.newAllocation) ∧
    (runCycle s env).1.riskProfile = s.riskProfile ∧
    (runCycle s env).1.performanceMetrics =
      (if k = 7 ∧ env.walletInfoOk = true then env.newMetrics else s.performanceMetrics) ∧
    (runCycle s env).1.decisionLog = failLog s.decisionLog env k := by
  obtain ⟨h2, hc, ha, hr, hm, hl⟩ := runCycleSteps_fail s env k hf hk1 hk7
  obtain ⟨g1, g2, g3, g4, g5⟩ := runCycle_fail_proj s env h2
  exact ⟨by rw [g1, hc], by rw [g2, ha], by rw [g3, hr], by rw [g4, hm], by rw [g5, hl]⟩

/-- Claim C3 witness: the amended claim at the fresh running agent with the
fetch sub-step failing. -/
theorem claim3_witness :
    (runCycle startedAgent (failEnv 1)).1.consecutiveFailures = startedAgent.consecutiveFailures + 1 ∧
    (runCycle startedAgent (failEnv 1)).1.currentAllocation =
      (if 1 ≤ 4 then startedAgent.currentAllocation else (failEnv 1).newAllocation) ∧
    (runCycle startedAgent (failEnv 1)).1.riskProfile = startedAgent.riskProfile ∧
    (runCycle startedAgent (failEnv 1)).1.performanceMetrics =
      (if 1 = 7 ∧ (failEnv 1).walletInfoOk = true then (failEnv 1).newMetrics
       else startedAgent.performanceMetrics) ∧
    (runCycle startedAgent (failEnv 1)).1.decisionLog = failLog startedAgent.decisionLog (failEnv 1) 1 :=
  claim3_failing_cycle_effects startedAgent (failEnv 1) 1 rfl (by norm_num) (by norm_num)

end HedgeFund
